import Mathlib

/-
Verification of the secondary publish hook
(`hooks/secondary_publish_tk-photoshop.py`).

The hook is a dispatch loop (`PublishHook.execute`) over a list of secondary
publish tasks plus one private helper (`PublishHook.__send_to_review`).  The
helper looks up the tracking record of the primary published file, exports the
active document as a temporary JPEG, creates a review "Version" record in the
tracking database and uploads the JPEG to it, deleting the temporary file in a
`finally` block.

The embedding below is a shallow one: the external collaborators (the
path-based publish lookup, the published-file entity-type query, the Photoshop
`saveAs` call, the tracking client's `create` and `upload`, and `os.remove`)
are injected through an `Env` record that fixes their outcomes, and every
observable call the hook makes is recorded in an event trace.  Python
exceptions become `Except` values; the existence of the temporary file on disk
is tracked by an explicit boolean.
-/

set_option autoImplicit false

namespace SecondaryPublish

/-- A reference to a tracking-database entity (user, project, shot, task ...):
an entity type together with an id, as the hook only ever passes these
through unchanged. -/
structure Entity where
  entityType : String
  id : Nat
deriving DecidableEq, Repr

/-- The record returned by `tank.util.find_publish` for a path.  The hook
requests the fields `id`, `type` and `code`. -/
structure PublishRecord where
  id : Nat
  recType : String
  code : String
deriving DecidableEq, Repr

/-- The `item` dictionary of a task, as produced by the scan hook. -/
structure Item where
  name : String
  description : String
  itemType : String
  otherParams : List (String × String)
deriving DecidableEq, Repr

/-- The `output` dictionary of a task, as defined in the configuration. -/
structure Output where
  name : String
  publishTemplate : String
  tankType : String
deriving DecidableEq, Repr

/-- A secondary publish task: `{item, output}`. -/
structure Task where
  item : Item
  output : Output
deriving DecidableEq, Repr

/-- One entry of the list returned by `execute`: `{task, errors}`. -/
structure ResultEntry where
  task : Task
  errors : List String
deriving DecidableEq, Repr

/-- The dictionary passed to `shotgun.create("Version", data)`.  The two
publish-link keys are optional because the source inserts exactly one of
them, depending on the published-file entity type. -/
structure VersionData where
  user : Entity
  description : String
  sg_first_frame : Nat
  frame_count : Nat
  frame_range : String
  sg_last_frame : Nat
  entity : Entity
  sg_path_to_frames : String
  project : Entity
  sg_task : Entity
  code : String
  created_by : Entity
  published_files : Option (List PublishRecord)
  tank_published_file : Option PublishRecord
deriving DecidableEq, Repr

/-- The observable calls the hook makes, in order.  `progress` records a
`progress_cb` invocation (percentage, optional message, optional task
context); `saveAs` the Photoshop export call; `createVersion` and `upload`
the tracking-client calls; `removeAttempt` the `os.remove` in the `finally`
block. -/
inductive Event where
  | progress (pct : Nat) (msg : Option String) (ctx : Option Task)
  | saveAs (path : String) (quality : Nat) (asCopy : Bool)
  | createVersion (entityType : String) (data : VersionData)
  | upload (entityType : String) (id : Nat) (path : String) (field : String)
  | removeAttempt (path : String)
deriving DecidableEq, Repr

/-- Exceptions that can escape the hook: a failure of the Photoshop `saveAs`
call, of `shotgun.create`, or of `shotgun.upload`.  (`os.remove` failures are
swallowed by the source and so never appear here.) -/
inductive Exn where
  | saveAsFailed
  | createFailed
  | uploadFailed
deriving DecidableEq, Repr

/-- The injected collaborators: the outcome of every external call the hook
can make, plus the ambient context (`self.parent.context`), the temp
directory and the random hex stem `uuid.uuid4().hex` used for the JPEG
name. -/
structure Env where
  foundPublishes : String → Option PublishRecord
  publishedFileEntityType : String
  saveAsOk : Bool
  createOk : Bool
  createdVersionId : Nat
  uploadOk : Bool
  removeOk : Bool
  tempHex : String
  tmpDir : String
  ctxUser : Entity
  ctxEntity : Entity
  ctxProject : Entity

/-- The temporary JPEG path:
`os.path.join(tempfile.gettempdir(), "%s_sgtk.jpg" % uuid.uuid4().hex)`. -/
def jpegPath (env : Env) : String :=
  env.tmpDir ++ "/" ++ env.tempHex ++ "_sgtk.jpg"

/-- The error string appended when the primary publish lookup finds
nothing. -/
def notFoundError (path : String) : String :=
  "Failed to find publish entity for " ++ path

/-- The error string appended for an unrecognized output name. -/
def unknownOutputError : String :=
  "Don\x27t know how to publish this item!"

/-- The `data` dictionary built for `shotgun.create("Version", data)`,
including the branch on `tank.util.get_published_file_entity_type`. -/
def versionData (env : Env) (primaryPublishPath : String) (sgTask : Entity)
    (comment : String) (primaryPublish : PublishRecord) : VersionData :=
  { user := env.ctxUser
    description := comment
    sg_first_frame := 1
    frame_count := 1
    frame_range := "1-1"
    sg_last_frame := 1
    entity := env.ctxEntity
    sg_path_to_frames := primaryPublishPath
    project := env.ctxProject
    sg_task := sgTask
    code := primaryPublish.code
    created_by := env.ctxUser
    published_files :=
      if env.publishedFileEntityType = "PublishedFile" then some [primaryPublish] else none
    tank_published_file :=
      if env.publishedFileEntityType = "PublishedFile" then none else some primaryPublish }

/-- Outcome of `__send_to_review`: its return value (or the exception it
raises), the trace of calls it made, and whether the temporary JPEG still
exists on disk afterwards. -/
structure SendOutcome where
  result : Except Exn (List String)
  events : List Event
  fileExists : Bool
deriving Repr

/-- The body of the `try` block of `__send_to_review`, entered after the
primary publish was found: the `saveAs` call, the `Version` creation and the
upload, each of which may raise.  Returns the body's outcome, the events of
the body, and whether the JPEG file was written. -/
def sendBody (env : Env) (primaryPublishPath : String) (sgTask : Entity)
    (comment : String) (primaryPublish : PublishRecord) :
    Except Exn Unit × List Event × Bool :=
  let path := jpegPath env
  let ev20 : Event := .progress 20 (some "Saving JPEG version of file") none
  let evSave : Event := .saveAs path 12 true
  if env.saveAsOk then
    let data := versionData env primaryPublishPath sgTask comment primaryPublish
    let ev50 : Event := .progress 50 (some "Creating review Version...") none
    let evCreate : Event := .createVersion "Version" data
    if env.createOk then
      let ev70 : Event := .progress 70 (some "Uploading to Shotgun...") none
      let evUp : Event := .upload "Version" env.createdVersionId path "sg_uploaded_movie"
      if env.uploadOk then
        (.ok (), [ev20, evSave, ev50, evCreate, ev70, evUp], true)
      else
        (.error .uploadFailed, [ev20, evSave, ev50, evCreate, ev70, evUp], true)
    else
      (.error .createFailed, [ev20, evSave, ev50, evCreate], true)
  else
    (.error .saveAsFailed, [ev20, evSave], false)

/-- `PublishHook.__send_to_review(primary_publish_path, sg_task, comment,
progress_cb)`.  Reports 10%, looks up the primary publish and returns the
not-found error if the lookup yields nothing; otherwise runs the `try` body
and, in the `finally` block, attempts `os.remove` on the JPEG path, swallowing
any error the removal itself raises. -/
def sendToReview (env : Env) (primaryPublishPath : String) (sgTask : Entity)
    (comment : String) : SendOutcome :=
  let ev10 : Event := .progress 10 (some "Retrieving Primary Publish") none
  match env.foundPublishes primaryPublishPath with
  | none =>
      { result := .ok [notFoundError primaryPublishPath]
        events := [ev10]
        fileExists := false }
  | some primaryPublish =>
      let b := sendBody env primaryPublishPath sgTask comment primaryPublish
      { result :=
          match b.1 with
          | .ok _ => .ok []
          | .error e => .error e
        events := ev10 :: b.2.1 ++ [.removeAttempt (jpegPath env)]
        fileExists := b.2.2 && !env.removeOk }

/-- The body of the dispatch loop of `PublishHook.execute` for one task:
report 0%, branch on `output["name"]`, collect errors into an optional result
entry, report 100%.  If `__send_to_review` raises, the exception propagates
and the 100% report never happens. -/
def processTask (env : Env) (comment : String) (sgTask : Entity)
    (primaryPublishPath : String) (task : Task) :
    Except Exn (Option ResultEntry) × List Event :=
  let ev0 : Event := .progress 0 (some "Publishing") (some task)
  if task.output.name = "send_to_review" then
    let o := sendToReview env primaryPublishPath sgTask comment
    match o.result with
    | .error e => (.error e, ev0 :: o.events)
    | .ok reviewErrors =>
        let entry :=
          if 0 < reviewErrors.length then some ⟨task, reviewErrors⟩ else none
        (.ok entry, ev0 :: o.events ++ [.progress 100 none none])
  else
    (.ok (some ⟨task, [unknownOutputError]⟩),
     [ev0, .progress 100 none none])

/-- `PublishHook.execute(tasks, work_template, comment, thumbnail_path,
sg_task, primary_publish_path, progress_cb)`: fold the dispatch-loop body over
the task list, appending the non-empty per-task error entries to the result
list.  An exception raised while processing one task aborts the remaining
batch. -/
def execute (env : Env) (tasks : List Task) (workTemplate : String)
    (comment : String) (thumbnailPath : String) (sgTask : Entity)
    (primaryPublishPath : String) : Except Exn (List ResultEntry) × List Event :=
  match tasks with
  | [] => (.ok [], [])
  | task :: rest =>
    let pr := processTask env comment sgTask primaryPublishPath task
    match pr.1 with
    | .error e => (.error e, pr.2)
    | .ok entry =>
      let r := execute env rest workTemplate comment thumbnailPath sgTask primaryPublishPath
      match r.1 with
      | .error e => (.error e, pr.2 ++ r.2)
      | .ok results => (.ok (entry.toList ++ results), pr.2 ++ r.2)

/-- The result entry a single task contributes on a non-raising run,
`none` meaning the task produced no errors. -/
def taskEntry (env : Env) (comment : String) (sgTask : Entity)
    (primaryPublishPath : String) (task : Task) : Option ResultEntry :=
  if task.output.name = "send_to_review" then
    match (sendToReview env primaryPublishPath sgTask comment).result with
    | .ok errs => if 0 < errs.length then some ⟨task, errs⟩ else none
    | .error _ => none
  else
    some ⟨task, [unknownOutputError]⟩

/-- The percentages of the `progress_cb` calls of a trace, in order. -/
def progressPcts (events : List Event) : List Nat :=
  events.filterMap fun e =>
    match e with
    | .progress pct _ _ => some pct
    | _ => none

/-- The payload of a `createVersion` event, if the event is one. -/
def createdData (e : Event) : Option VersionData :=
  match e with
  | .createVersion _ d => some d
  | _ => none

/-- Whether an event is a Photoshop `saveAs` call. -/
def isSaveEvent (e : Event) : Bool :=
  match e with
  | .saveAs _ _ _ => true
  | _ => false

/-- Whether an event is a `shotgun.create` call. -/
def isCreateEvent (e : Event) : Bool :=
  match e with
  | .createVersion _ _ => true
  | _ => false

/-- Whether an event is a `shotgun.upload` call. -/
def isUploadEvent (e : Event) : Bool :=
  match e with
  | .upload _ _ _ _ => true
  | _ => false

/-- Whether an event is an `os.remove` attempt. -/
def isRemoveEvent (e : Event) : Bool :=
  match e with
  | .removeAttempt _ => true
  | _ => false

end SecondaryPublish

namespace SecondaryPublish

/-- A sample primary publish record, as the lookup would return it. -/
def recA : PublishRecord :=
  { id := 101, recType := "PublishedFile", code := "scene_v003.psd" }

/-- A sample Shotgun task entity. -/
def sgTaskA : Entity :=
  { entityType := "Task", id := 55 }

/-- An environment in which every collaborator call succeeds and the lookup
finds `recA` at the path "/proj/scene_v003.psd". -/
def envOk : Env :=
  { foundPublishes := fun q => if q = "/proj/scene_v003.psd" then some recA else none
    publishedFileEntityType := "PublishedFile"
    saveAsOk := true
    createOk := true
    createdVersionId := 7
    uploadOk := true
    removeOk := true
    tempHex := "0a1b2c"
    tmpDir := "/tmp"
    ctxUser := { entityType := "HumanUser", id := 1 }
    ctxEntity := { entityType := "Shot", id := 2 }
    ctxProject := { entityType := "Project", id := 3 } }

/-- `envOk` with a lookup that finds nothing. -/
def envNotFound : Env :=
  { envOk with foundPublishes := fun _ => none }

/-- `envOk` with a failing Photoshop `saveAs` call. -/
def envSaveFail : Env :=
  { envOk with saveAsOk := false }

/-- `envOk` with a failing `os.remove` (for instance the file is locked). -/
def envNoRemove : Env :=
  { envOk with removeOk := false }

/-- A task whose output is the recognized "send_to_review" kind. -/
def reviewTask : Task :=
  { item := { name := "scene", description := "the scene", itemType := "work_file",
              otherParams := [] }
    output := { name := "send_to_review", publishTemplate := "review_template",
                tankType := "Photoshop Image" } }

/-- A task with an unrecognized output kind. -/
def cacheTask : Task :=
  { item := { name := "mesh", description := "a mesh", itemType := "geometry",
              otherParams := [] }
    output := { name := "alembic_cache", publishTemplate := "cache_template",
                tankType := "Alembic Cache" } }

end SecondaryPublish

namespace SecondaryPublish

lemma taskEntry_task {env : Env} {c : String} {st : Entity} {p : String}
    {t : Task} {e : ResultEntry} (h : taskEntry env c st p t = some e) :
    e.task = t := by
  unfold taskEntry at h
  by_cases hn : t.output.name = "send_to_review"
  · simp only [hn, if_true] at h
    cases hr : (sendToReview env p st c).result with
    | error ex => rw [hr] at h; cases h
    | ok errs =>
        rw [hr] at h
        by_cases hl : 0 < errs.length
        · simp [hl] at h; rw [← h]
        · simp [hl] at h
  · simp only [hn, if_false] at h
    cases h
    rfl

lemma processTask_fst_ok {env : Env} {c : String} {st : Entity} {p : String}
    {task : Task} {entry : Option ResultEntry}
    (h : (processTask env c st p task).1 = Except.ok entry) :
    entry = taskEntry env c st p task := by
  unfold processTask at h
  unfold taskEntry
  by_cases hn : task.output.name = "send_to_review"
  · simp only [hn, if_true] at h ⊢
    cases hr : (sendToReview env p st c).result with
    | error ex => rw [hr] at h; cases h
    | ok errs => rw [hr] at h; simp at h; exact h.symm
  · simp only [hn, if_false] at h ⊢
    cases h
    rfl

lemma execute_fst_ok {env : Env} {tasks : List Task} {wt c tp : String}
    {st : Entity} {p : String} {results : List ResultEntry}
    (h : (execute env tasks wt c tp st p).1 = Except.ok results) :
    results = tasks.filterMap (taskEntry env c st p) := by
  induction tasks generalizing results with
  | nil =>
      simp [execute] at h
      simp [h]
  | cons t ts ih =>
      rw [execute] at h
      cases hp : (processTask env c st p t).1 with
      | error e => simp [hp] at h
      | ok entry =>
          cases hr : (execute env ts wt c tp st p).1 with
          | error e => simp [hp, hr] at h
          | ok rs =>
              simp [hp, hr] at h
              have he := processTask_fst_ok hp
              have hrs := ih hr
              rw [List.filterMap_cons, ← he, ← hrs, ← h]
              cases entry <;> simp

end SecondaryPublish

namespace SecondaryPublish

lemma filter_filterMap_replicate {α β : Type} [DecidableEq α] [DecidableEq β]
    (f : α → Option β) (g : β → α)
    (hall : ∀ a b, f a = some b → g b = a) (a0 : α) (b0 : β)
    (hb : f a0 = some b0) :
    ∀ l : List α, (l.filterMap f).filter (fun b => decide (g b = a0)) =
      List.replicate (l.countP fun a => decide (a = a0)) b0 := by
  intro l
  induction l with
  | nil => simp
  | cons a l ih =>
      by_cases ha : a = a0
      · subst ha
        rw [List.filterMap_cons_some hb, List.filter_cons, List.countP_cons]
        simp [hall a b0 hb, ih, List.replicate_succ]
      · cases hfa : f a with
        | none =>
            rw [List.filterMap_cons_none hfa, List.countP_cons]
            simp [ha, ih]
        | some b =>
            have hgb : g b = a := hall a b hfa
            rw [List.filterMap_cons_some hfa, List.filter_cons, List.countP_cons]
            simp [hgb, ha, ih]

lemma map_filterMap_sublist {α β : Type} (f : α → Option β) (g : β → α)
    (hall : ∀ a b, f a = some b → g b = a) :
    ∀ l : List α, ((l.filterMap f).map g).Sublist l := by
  intro l
  induction l with
  | nil => simp
  | cons a l ih =>
      cases hfa : f a with
      | none => rw [List.filterMap_cons_none hfa]; exact ih.cons a
      | some b =>
          rw [List.filterMap_cons_some hfa, List.map_cons, hall a b hfa]
          exact ih.cons₂ a

end SecondaryPublish

namespace SecondaryPublish

lemma execute_error_of_send_error {env : Env} {c : String} {st : Entity}
    {p : String} (e : Exn)
    (hsr : (sendToReview env p st c).result = Except.error e) :
    ∀ (tasks : List Task) (wt tp : String) (task : Task), task ∈ tasks →
      task.output.name = "send_to_review" →
      (execute env tasks wt c tp st p).1 = Except.error e := by
  intro tasks
  induction tasks with
  | nil => intro wt tp task hmem; cases hmem
  | cons t ts ih =>
      intro wt tp task hmem hname
      rw [execute]
      by_cases ht : t.output.name = "send_to_review"
      · have hpt : (processTask env c st p t).1 = Except.error e := by
          simp [processTask, ht, hsr]
        simp [hpt]
      · have hpt : (processTask env c st p t).1 =
            Except.ok (some ⟨t, [unknownOutputError]⟩) := by
          simp [processTask, ht]
        have htask : task ∈ ts := by
          rcases List.mem_cons.mp hmem with h1 | h2
          · exact absurd (h1 ▸ hname) ht
          · exact h2
        have hrec := ih wt tp task htask hname
        simp [hpt, hrec]

/-- Claim C2: when the path-based publish lookup returns no record for the
primary publish path, `__send_to_review` returns exactly the single error
string "Failed to find publish entity for <path>" and performs no further
side effects: no export call, no `Version` creation call, no upload call, and
no temporary file on disk. -/
theorem publish_not_found_no_side_effects
    (env : Env) (p : String) (st : Entity) (c : String)
    (h : env.foundPublishes p = none) :
    (sendToReview env p st c).result = Except.ok [notFoundError p] ∧
    (sendToReview env p st c).events.countP isSaveEvent = 0 ∧
    (sendToReview env p st c).events.countP isCreateEvent = 0 ∧
    (sendToReview env p st c).events.countP isUploadEvent = 0 ∧
    (sendToReview env p st c).fileExists = false := by
  simp [sendToReview, h, isSaveEvent, isCreateEvent, isUploadEvent,
    List.countP_cons, List.countP_nil]

/-- Witness for claim C2 at a concrete environment whose lookup finds
nothing. -/
theorem publish_not_found_no_side_effects_witness :
    envNotFound.foundPublishes "/proj/scene_v003.psd" = none ∧
    ((sendToReview envNotFound "/proj/scene_v003.psd" sgTaskA "c").result
        = Except.ok [notFoundError "/proj/scene_v003.psd"] ∧
      (sendToReview envNotFound "/proj/scene_v003.psd" sgTaskA "c").events.countP
          isSaveEvent = 0 ∧
      (sendToReview envNotFound "/proj/scene_v003.psd" sgTaskA "c").events.countP
          isCreateEvent = 0 ∧
      (sendToReview envNotFound "/proj/scene_v003.psd" sgTaskA "c").events.countP
          isUploadEvent = 0 ∧
      (sendToReview envNotFound "/proj/scene_v003.psd" sgTaskA "c").fileExists = false) :=
  ⟨rfl, publish_not_found_no_side_effects envNotFound "/proj/scene_v003.psd" sgTaskA "c" rfl⟩

/-- Claim C10: the error list returned by `__send_to_review` always has
length at most one: it is either empty or exactly the single
publish-not-found error, and on any non-raising run past a successful lookup
it is empty. -/
theorem send_errors_at_most_one
    (env : Env) (p : String) (st : Entity) (c : String) (errs : List String)
    (h : (sendToReview env p st c).result = Except.ok errs) :
    errs.length ≤ 1 ∧ (errs = [] ∨ errs = [notFoundError p]) ∧
    ((env.foundPublishes p).isSome = true → errs = []) := by
  unfold sendToReview at h
  rcases hf : env.foundPublishes p with _ | rec <;> rw [hf] at h <;> dsimp only at h
  · simp at h
    subst h
    simp
  · rcases hb : (sendBody env p st c rec).1 with e | u <;> rw [hb] at h <;> simp at h
    subst h
    simp

/-- Witness for claim C10 at a concrete environment whose lookup finds
nothing, so the returned error list is the single not-found message. -/
theorem send_errors_at_most_one_witness :
    (sendToReview envNotFound "/proj/scene_v003.psd" sgTaskA "c").result
      = Except.ok [notFoundError "/proj/scene_v003.psd"] ∧
    ([notFoundError "/proj/scene_v003.psd"].length ≤ 1 ∧
      ([notFoundError "/proj/scene_v003.psd"] = ([] : List String) ∨
        [notFoundError "/proj/scene_v003.psd"] = [notFoundError "/proj/scene_v003.psd"]) ∧
      ((envNotFound.foundPublishes "/proj/scene_v003.psd").isSome = true →
        [notFoundError "/proj/scene_v003.psd"] = [])) :=
  ⟨rfl, send_errors_at_most_one envNotFound "/proj/scene_v003.psd" sgTaskA "c" _ rfl⟩

end SecondaryPublish

namespace SecondaryPublish

/-- Claim C5: any failure during document export, `Version` creation or
upload propagates as a raised exception out of `__send_to_review`, and out of
the dispatch loop of `execute`, aborting the remaining batch; only the
publish-not-found case is converted into a returned error value instead of an
exception. -/
theorem failures_raise_except_not_found
    (env : Env) (p : String) (st : Entity) (c : String) :
    (∀ e, (sendToReview env p st c).result = Except.error e →
        (env.foundPublishes p).isSome = true ∧
        (env.saveAsOk = false ∨ env.createOk = false ∨ env.uploadOk = false)) ∧
    ((env.foundPublishes p).isSome = true →
      (env.saveAsOk = false ∨ env.createOk = false ∨ env.uploadOk = false) →
      ∃ e, (sendToReview env p st c).result = Except.error e) ∧
    (env.foundPublishes p = none →
      (sendToReview env p st c).result = Except.ok [notFoundError p]) ∧
    (∀ (tasks : List Task) (wt tp : String) (e : Exn) (task : Task),
      task ∈ tasks → task.output.name = "send_to_review" →
      (sendToReview env p st c).result = Except.error e →
      (execute env tasks wt c tp st p).1 = Except.error e) := by
  refine ⟨?_, ?_, ?_, ?_⟩
  · intro e he
    rcases hf : env.foundPublishes p with _ | rec <;>
      cases hs : env.saveAsOk <;> cases hc : env.createOk <;> cases hu : env.uploadOk <;>
      simp [sendToReview, sendBody, hf, hs, hc, hu] at he ⊢
  · intro hf2 hfail
    rcases hf : env.foundPublishes p with _ | rec
    · rw [hf] at hf2; cases hf2
    · cases hs : env.saveAsOk <;> cases hc : env.createOk <;> cases hu : env.uploadOk <;>
        rcases hfail with h1 | h1 | h1 <;>
        simp [sendToReview, sendBody, hf, hs, hc, hu] at h1 ⊢
  · intro hf
    simp [sendToReview, hf]
  · intro tasks wt tp e task hmem hname he
    exact execute_error_of_send_error e he tasks wt tp task hmem hname

/-- Witness for claim C5: with a failing Photoshop export, the exception
escapes `execute` and aborts the batch. -/
theorem failures_raise_except_not_found_witness :
    reviewTask ∈ [reviewTask] ∧
    reviewTask.output.name = "send_to_review" ∧
    (sendToReview envSaveFail "/proj/scene_v003.psd" sgTaskA "c").result
      = Except.error Exn.saveAsFailed ∧
    (execute envSaveFail [reviewTask] "wt" "c" "tp" sgTaskA "/proj/scene_v003.psd").1
      = Except.error Exn.saveAsFailed :=
  ⟨List.mem_cons_self _ _, rfl, rfl,
    (failures_raise_except_not_found envSaveFail "/proj/scene_v003.psd" sgTaskA "c").2.2.2
      [reviewTask] "wt" "tp" Exn.saveAsFailed reviewTask (List.mem_cons_self _ _) rfl rfl⟩

/-- Counterexample to claim C4 as stated: in an environment where the
`os.remove` call fails (for instance the exported file is locked), the
submission procedure returns success, yet the temporary JPEG still exists on
disk afterwards — the source only attempts the deletion and swallows its
failure. -/
theorem temp_file_survives_failed_remove :
    (sendToReview envNoRemove "/proj/scene_v003.psd" sgTaskA "c").result = Except.ok [] ∧
    (sendToReview envNoRemove "/proj/scene_v003.psd" sgTaskA "c").fileExists = true :=
  ⟨rfl, rfl⟩

/-- Claim C4 (amended): after `__send_to_review` finishes — success, returned
error, or raised exception — the deletion of the temporary JPEG has been
attempted whenever the export stage was entered, exactly once, on the JPEG
path; a failure of the deletion itself never changes the returned result
(it is swallowed); and the file does not exist afterwards whenever the
deletion attempt succeeds or the file was never created. -/
theorem cleanup_best_effort (env : Env) (p : String) (st : Entity) (c : String) :
    (∀ b, (sendToReview { env with removeOk := b } p st c).result
        = (sendToReview env p st c).result) ∧
    (env.removeOk = true → (sendToReview env p st c).fileExists = false) ∧
    (env.foundPublishes p = none → (sendToReview env p st c).fileExists = false) ∧
    (env.saveAsOk = false → (sendToReview env p st c).fileExists = false) ∧
    ((env.foundPublishes p).isSome = true →
      (sendToReview env p st c).events.countP isRemoveEvent = 1 ∧
      Event.removeAttempt (jpegPath env) ∈ (sendToReview env p st c).events) := by
  refine ⟨?_, ?_, ?_, ?_, ?_⟩
  · intro b
    rcases hf : env.foundPublishes p with _ | rec <;>
      cases hs : env.saveAsOk <;> cases hc : env.createOk <;> cases hu : env.uploadOk <;>
      simp [sendToReview, sendBody, hf, hs, hc, hu]
  · intro hr
    rcases hf : env.foundPublishes p with _ | rec <;>
      simp [sendToReview, sendBody, hf, hr]
  · intro hf
    simp [sendToReview, hf]
  · intro hs
    rcases hf : env.foundPublishes p with _ | rec <;>
      simp [sendToReview, sendBody, hf, hs]
  · intro hf2
    rcases hf : env.foundPublishes p with _ | rec
    · rw [hf] at hf2; cases hf2
    · cases hs : env.saveAsOk <;> cases hc : env.createOk <;> cases hu : env.uploadOk <;>
        simp [sendToReview, sendBody, hf, hs, hc, hu, isRemoveEvent,
          List.countP_cons, List.countP_nil]

/-- Witness for the amended claim C4 at a fully successful environment: the
removal is attempted once and the file is gone afterwards. -/
theorem cleanup_best_effort_witness :
    envOk.removeOk = true ∧
    (envOk.foundPublishes "/proj/scene_v003.psd").isSome = true ∧
    (sendToReview envOk "/proj/scene_v003.psd" sgTaskA "c").fileExists = false ∧
    (sendToReview envOk "/proj/scene_v003.psd" sgTaskA "c").events.countP isRemoveEvent = 1 :=
  ⟨rfl, rfl,
    (cleanup_best_effort envOk "/proj/scene_v003.psd" sgTaskA "c").2.1 rfl,
    ((cleanup_best_effort envOk "/proj/scene_v003.psd" sgTaskA "c").2.2.2.2 rfl).1⟩

end SecondaryPublish

namespace SecondaryPublish

/-- Claim C3: for a send-to-review task that fully succeeds, exactly one
review `Version` creation call is made, its payload has `sg_path_to_frames`
equal to the primary publish path, frame fields fixed to
`sg_first_frame = 1`, `sg_last_frame = 1`, `frame_count = 1`,
`frame_range = "1-1"`, description equal to the supplied comment and code
equal to the primary record's `code`; and no result entry is produced for
any send-to-review task. -/
theorem full_success_creates_one_version
    (env : Env) (p : String) (st : Entity) (c : String) (rec : PublishRecord)
    (hf : env.foundPublishes p = some rec)
    (hs : env.saveAsOk = true) (hc : env.createOk = true) (hu : env.uploadOk = true) :
    (sendToReview env p st c).result = Except.ok [] ∧
    (sendToReview env p st c).events.filterMap createdData = [versionData env p st c rec] ∧
    (versionData env p st c rec).sg_path_to_frames = p ∧
    (versionData env p st c rec).sg_first_frame = 1 ∧
    (versionData env p st c rec).sg_last_frame = 1 ∧
    (versionData env p st c rec).frame_count = 1 ∧
    (versionData env p st c rec).frame_range = "1-1" ∧
    (versionData env p st c rec).description = c ∧
    (versionData env p st c rec).code = rec.code ∧
    (∀ (tasks : List Task) (wt tp : String) (results : List ResultEntry),
      (execute env tasks wt c tp st p).1 = Except.ok results →
      ∀ e ∈ results, e.task.output.name ≠ "send_to_review") := by
  refine ⟨?_, ?_, rfl, rfl, rfl, rfl, rfl, rfl, rfl, ?_⟩
  · simp [sendToReview, sendBody, hf, hs, hc, hu]
  · simp [sendToReview, sendBody, hf, hs, hc, hu, createdData]
  · intro tasks wt tp results hex e hmem hname
    have hres := execute_fst_ok hex
    subst hres
    rw [List.mem_filterMap] at hmem
    obtain ⟨t, htmem, hte⟩ := hmem
    have htask := taskEntry_task hte
    rw [htask] at hname
    unfold taskEntry at hte
    rw [if_pos hname] at hte
    have hok : (sendToReview env p st c).result = Except.ok [] := by
      simp [sendToReview, sendBody, hf, hs, hc, hu]
    rw [hok] at hte
    simp at hte

/-- Witness for claim C3 at a fully successful concrete environment. -/
theorem full_success_creates_one_version_witness :
    envOk.foundPublishes "/proj/scene_v003.psd" = some recA ∧
    envOk.saveAsOk = true ∧ envOk.createOk = true ∧ envOk.uploadOk = true ∧
    ((sendToReview envOk "/proj/scene_v003.psd" sgTaskA "c").result = Except.ok [] ∧
      (sendToReview envOk "/proj/scene_v003.psd" sgTaskA "c").events.filterMap createdData
        = [versionData envOk "/proj/scene_v003.psd" sgTaskA "c" recA]) :=
  ⟨rfl, rfl, rfl, rfl,
    (full_success_creates_one_version envOk "/proj/scene_v003.psd" sgTaskA "c" recA
        rfl rfl rfl rfl).1,
    (full_success_creates_one_version envOk "/proj/scene_v003.psd" sgTaskA "c" recA
        rfl rfl rfl rfl).2.1⟩

/-- Claim C6: the payload of any `Version` creation call sets exactly one of
the two publish-link fields, chosen solely by the reported published-file
entity type: `published_files` (a one-element list holding the primary
record) when that type is "PublishedFile", `tank_published_file` (the record
itself) otherwise — never both. -/
theorem publish_link_field_exclusive
    (env : Env) (p : String) (st : Entity) (c : String) (s : String) (d : VersionData)
    (hmem : Event.createVersion s d ∈ (sendToReview env p st c).events) :
    (d.published_files = none ∨ d.tank_published_file = none) ∧
    (env.publishedFileEntityType = "PublishedFile" →
      ∃ rec, env.foundPublishes p = some rec ∧
        d.published_files = some [rec] ∧ d.tank_published_file = none) ∧
    (env.publishedFileEntityType ≠ "PublishedFile" →
      ∃ rec, env.foundPublishes p = some rec ∧
        d.published_files = none ∧ d.tank_published_file = some rec) := by
  rcases hf : env.foundPublishes p with _ | rec
  · simp [sendToReview, hf] at hmem
  · have hd : d = versionData env p st c rec := by
      cases hs : env.saveAsOk <;> cases hc : env.createOk <;> cases hu : env.uploadOk <;>
        simp [sendToReview, sendBody, hf, hs, hc, hu] at hmem <;> tauto
    subst hd
    refine ⟨?_, ?_, ?_⟩
    · by_cases hp : env.publishedFileEntityType = "PublishedFile" <;> simp [versionData, hp]
    · intro hp
      exact ⟨rec, rfl, by simp [versionData, hp], by simp [versionData, hp]⟩
    · intro hp
      exact ⟨rec, rfl, by simp [versionData, hp], by simp [versionData, hp]⟩

/-- Witness for claim C6: in the concrete successful run the creation
payload carries `published_files = [recA]` and no `tank_published_file`. -/
theorem publish_link_field_exclusive_witness :
    Event.createVersion "Version" (versionData envOk "/proj/scene_v003.psd" sgTaskA "c" recA)
      ∈ (sendToReview envOk "/proj/scene_v003.psd" sgTaskA "c").events ∧
    (∃ rec, envOk.foundPublishes "/proj/scene_v003.psd" = some rec ∧
      (versionData envOk "/proj/scene_v003.psd" sgTaskA "c" recA).published_files = some [rec] ∧
      (versionData envOk "/proj/scene_v003.psd" sgTaskA "c" recA).tank_published_file = none) := by
  have hmem : Event.createVersion "Version"
      (versionData envOk "/proj/scene_v003.psd" sgTaskA "c" recA)
      ∈ (sendToReview envOk "/proj/scene_v003.psd" sgTaskA "c").events := by
    simp [sendToReview, sendBody, envOk]
  exact ⟨hmem,
    (publish_link_field_exclusive envOk "/proj/scene_v003.psd" sgTaskA "c" "Version"
        (versionData envOk "/proj/scene_v003.psd" sgTaskA "c" recA) hmem).2.1 rfl⟩

end SecondaryPublish

namespace SecondaryPublish

/-- Counterexample to claim C8 as stated: with a failing Photoshop export,
the per-task progress percentages are 0, 10, 20 — the callback is never
invoked with 100 for that task, so 100 is not reported exactly once as the
final call. -/
theorem progress_stops_before_100_on_raise :
    progressPcts (processTask envSaveFail "c" sgTaskA "/proj/scene_v003.psd" reviewTask).2
      = [0, 10, 20] ∧
    (progressPcts (processTask envSaveFail "c" sgTaskA "/proj/scene_v003.psd" reviewTask).2).countP
        (fun n => decide (n = 100)) = 0 :=
  ⟨rfl, rfl⟩

/-- Claim C8 (amended): for each task, on runs where processing the task does
not raise, the progress callback percentages are monotonically non-decreasing,
start at 0, end at 100, and 100 is reported exactly once, as the final call;
when the submission procedure raises, the task's progress sequence contains
no 100 at all. -/
theorem progress_monotone_when_no_raise
    (env : Env) (c : String) (st : Entity) (p : String) (task : Task) :
    (∀ entry, (processTask env c st p task).1 = Except.ok entry →
      (progressPcts (processTask env c st p task).2).head? = some 0 ∧
      (progressPcts (processTask env c st p task).2).getLast? = some 100 ∧
      List.Chain' (· ≤ ·) (progressPcts (processTask env c st p task).2) ∧
      (progressPcts (processTask env c st p task).2).countP
        (fun n => decide (n = 100)) = 1) ∧
    (∀ e, (processTask env c st p task).1 = Except.error e →
      (progressPcts (processTask env c st p task).2).countP
        (fun n => decide (n = 100)) = 0) := by
  constructor
  · intro entry he
    by_cases hn : task.output.name = "send_to_review"
    · rcases hf : env.foundPublishes p with _ | rec
      · simp [processTask, sendToReview, hn, hf, progressPcts]
      · cases hs : env.saveAsOk <;> cases hc : env.createOk <;> cases hu : env.uploadOk <;>
          simp [processTask, sendToReview, sendBody, hn, hf, hs, hc, hu, progressPcts] at he ⊢
    · simp [processTask, hn, progressPcts]
  · intro e he
    by_cases hn : task.output.name = "send_to_review"
    · rcases hf : env.foundPublishes p with _ | rec
      · simp [processTask, sendToReview, hn, hf] at he
      · cases hs : env.saveAsOk <;> cases hc : env.createOk <;> cases hu : env.uploadOk <;>
          simp [processTask, sendToReview, sendBody, hn, hf, hs, hc, hu, progressPcts] at he ⊢
    · simp [processTask, hn] at he

/-- Witness for the amended claim C8 on a fully successful task: percentages
0, 10, 20, 50, 70, 100. -/
theorem progress_monotone_when_no_raise_witness :
    (processTask envOk "c" sgTaskA "/proj/scene_v003.psd" reviewTask).1 = Except.ok none ∧
    ((progressPcts (processTask envOk "c" sgTaskA "/proj/scene_v003.psd" reviewTask).2).head?
        = some 0 ∧
      (progressPcts (processTask envOk "c" sgTaskA "/proj/scene_v003.psd" reviewTask).2).getLast?
        = some 100 ∧
      List.Chain' (· ≤ ·)
        (progressPcts (processTask envOk "c" sgTaskA "/proj/scene_v003.psd" reviewTask).2) ∧
      (progressPcts (processTask envOk "c" sgTaskA "/proj/scene_v003.psd" reviewTask).2).countP
        (fun n => decide (n = 100)) = 1) :=
  ⟨rfl, (progress_monotone_when_no_raise envOk "c" sgTaskA "/proj/scene_v003.psd" reviewTask).1
      none rfl⟩

end SecondaryPublish

namespace SecondaryPublish

/-- Claim C1: for every task in the input list whose output name is not
"send_to_review", the returned result list contains exactly one entry per
occurrence of that task, and that entry's errors list is exactly the single
fixed unknown-output error. -/
theorem unrecognized_output_single_error
    (env : Env) (tasks : List Task) (wt c tp : String) (st : Entity) (p : String)
    (results : List ResultEntry) (task : Task)
    (hex : (execute env tasks wt c tp st p).1 = Except.ok results)
    (_hmem : task ∈ tasks) (hname : task.output.name ≠ "send_to_review") :
    results.filter (fun e => decide (e.task = task)) =
      List.replicate (tasks.countP fun t => decide (t = task))
        ⟨task, [unknownOutputError]⟩ := by
  have hres := execute_fst_ok hex
  subst hres
  refine filter_filterMap_replicate (taskEntry env c st p) ResultEntry.task
    (fun t e h => taskEntry_task h) task ⟨task, [unknownOutputError]⟩ ?_ tasks
  unfold taskEntry
  rw [if_neg hname]

/-- Witness for claim C1: a two-task batch whose first task has an
unrecognized output kind. -/
theorem unrecognized_output_single_error_witness :
    (execute envOk [cacheTask, reviewTask] "wt" "c" "tp" sgTaskA "/proj/scene_v003.psd").1
      = Except.ok [⟨cacheTask, [unknownOutputError]⟩] ∧
    cacheTask ∈ [cacheTask, reviewTask] ∧
    cacheTask.output.name ≠ "send_to_review" ∧
    ([(⟨cacheTask, [unknownOutputError]⟩ : ResultEntry)].filter
        (fun e => decide (e.task = cacheTask)) =
      List.replicate (([cacheTask, reviewTask] : List Task).countP
        fun t => decide (t = cacheTask)) ⟨cacheTask, [unknownOutputError]⟩) :=
  ⟨rfl, List.mem_cons_self _ _, by decide,
    unrecognized_output_single_error envOk [cacheTask, reviewTask] "wt" "c" "tp" sgTaskA
      "/proj/scene_v003.psd" [⟨cacheTask, [unknownOutputError]⟩] cacheTask rfl
      (List.mem_cons_self _ _) (by decide)⟩

/-- Claim C7: `execute` yields at most one result entry per task — the result
entries' tasks form a sublist, in input order, of the input task list, so the
returned list's length is at most the input list's length — and when every
task succeeds the returned list is empty. -/
theorem results_ordered_at_most_one_per_task
    (env : Env) (tasks : List Task) (wt c tp : String) (st : Entity) (p : String)
    (results : List ResultEntry)
    (hex : (execute env tasks wt c tp st p).1 = Except.ok results) :
    (results.map ResultEntry.task).Sublist tasks ∧
    results.length ≤ tasks.length ∧
    ((∀ t ∈ tasks, t.output.name = "send_to_review") →
      (sendToReview env p st c).result = Except.ok [] →
      results = []) := by
  have hres := execute_fst_ok hex
  subst hres
  refine ⟨?_, ?_, ?_⟩
  · exact map_filterMap_sublist (taskEntry env c st p) ResultEntry.task
      (fun t e h => taskEntry_task h) tasks
  · have h1 := (map_filterMap_sublist (taskEntry env c st p) ResultEntry.task
      (fun t e h => taskEntry_task h) tasks).length_le
    rw [List.length_map] at h1
    exact h1
  · intro hall hok
    rw [List.filterMap_eq_nil_iff]
    intro t ht
    unfold taskEntry
    rw [if_pos (hall t ht), hok]
    simp

/-- Witness for claim C7 on a concrete two-task batch with one failing
task. -/
theorem results_ordered_at_most_one_per_task_witness :
    (execute envOk [cacheTask, reviewTask] "wt" "c" "tp" sgTaskA "/proj/scene_v003.psd").1
      = Except.ok [⟨cacheTask, [unknownOutputError]⟩] ∧
    ([(⟨cacheTask, [unknownOutputError]⟩ : ResultEntry)].map ResultEntry.task).Sublist
      [cacheTask, reviewTask] ∧
    ([(⟨cacheTask, [unknownOutputError]⟩ : ResultEntry)] : List ResultEntry).length
      ≤ ([cacheTask, reviewTask] : List Task).length :=
  ⟨rfl,
    (results_ordered_at_most_one_per_task envOk [cacheTask, reviewTask] "wt" "c" "tp" sgTaskA
      "/proj/scene_v003.psd" [⟨cacheTask, [unknownOutputError]⟩] rfl).1,
    (results_ordered_at_most_one_per_task envOk [cacheTask, reviewTask] "wt" "c" "tp" sgTaskA
      "/proj/scene_v003.psd" [⟨cacheTask, [unknownOutputError]⟩] rfl).2.1⟩

/-- Claim C9: `execute` never mutates the task dictionaries it receives: the
embedding is pure, tasks are only read, and every task reference embedded in
the returned result entries is one of the unchanged input tasks. -/
theorem tasks_not_mutated
    (env : Env) (tasks : List Task) (wt c tp : String) (st : Entity) (p : String)
    (results : List ResultEntry)
    (hex : (execute env tasks wt c tp st p).1 = Except.ok results) :
    ∀ e ∈ results, e.task ∈ tasks := by
  have hres := execute_fst_ok hex
  subst hres
  intro e he
  rw [List.mem_filterMap] at he
  obtain ⟨t, ht, hte⟩ := he
  rw [taskEntry_task hte]
  exact ht

/-- Witness for claim C9: the single result entry of a concrete batch embeds
the input task unchanged. -/
theorem tasks_not_mutated_witness :
    (execute envOk [cacheTask, reviewTask] "wt" "c" "tp" sgTaskA "/proj/scene_v003.psd").1
      = Except.ok [⟨cacheTask, [unknownOutputError]⟩] ∧
    (∀ e ∈ [(⟨cacheTask, [unknownOutputError]⟩ : ResultEntry)],
      e.task ∈ [cacheTask, reviewTask]) :=
  ⟨rfl, tasks_not_mutated envOk [cacheTask, reviewTask] "wt" "c" "tp" sgTaskA
    "/proj/scene_v003.psd" [⟨cacheTask, [unknownOutputError]⟩] rfl⟩

end SecondaryPublish
